import Mathlib

/-!
Verification of the Opencodebot telegram controller.

The repository contains two divergent implementations of the controller:
`telegram_controller.py` at the repository root (namespace `RootCtl` below) and
`src/telegram_controller.py` (namespace `SrcCtl` below), plus a checkpoint
variant contributing `escape_only_dots`.  Both are embedded here.

Python-level conventions of the embedding:
* JSON values decoded by `json.loads` are modelled by the inductive `Json`.
  Numbers are split into integers (`num`) and decimal floats (`fnum m e`,
  the value `m * 10^e`); the special float literals accepted by Python's
  decoder are kept symbolically (`fnan`, `finf`).
* Python attribute errors (calling `.get` or `.strip` on a non-dict /
  non-string) are modelled with the `Except String` monad; the error string
  mirrors Python's AttributeError message.
* `str.strip()` is `pyStrip`, `str()` conversion in f-strings is `pyStr`,
  truthiness (`if x:`) is `pyTruthy`, and `json.dumps(obj, indent=2)` is
  `pyDumps`.  Float rendering inside `pyDumps`/`pyStr` prints the stored
  decimal mantissa/exponent rather than shortest-round-trip binary float
  repr; no theorem below depends on float rendering.
-/

/-- A decoded JSON value, as produced by Python's `json.loads`. -/
inductive Json where
  | null
  | bool (b : Bool)
  | num (n : Int)
  | fnum (m : Int) (e : Int)
  | fnan
  | finf (neg : Bool)
  | str (s : String)
  | arr (elems : List Json)
  | obj (members : List (String × Json))

/-- Association lookup over object members (Python dict lookup; keys are unique
because the decoder collapses duplicates last-wins, as `dict` does). -/
def flookup : List (String × Json) → String → Option Json
  | [], _ => none
  | (k, v) :: rest, key => if k = key then some v else flookup rest key

/-- Python `d.get(key, default)` on a dict represented by its member list. -/
def fieldD (fs : List (String × Json)) (key : String) (d : Json) : Json :=
  match flookup fs key with
  | some v => v
  | none => d

/-- Insert a key into an object: Python `dict` keeps the first position of a
repeated key and overwrites its value. -/
def objInsert (fs : List (String × Json)) (key : String) (v : Json) : List (String × Json) :=
  match fs with
  | [] => [(key, v)]
  | (k, w) :: rest => if k = key then (k, v) :: rest else (k, w) :: objInsert rest key v

/-- Python type name of a decoded value, as it appears in error messages. -/
def pyTypeName : Json → String
  | .null => "NoneType"
  | .bool _ => "bool"
  | .num _ => "int"
  | .fnum _ _ => "float"
  | .fnan => "float"
  | .finf _ => "float"
  | .str _ => "str"
  | .arr _ => "list"
  | .obj _ => "dict"

/-- Message of the `AttributeError` raised when calling a missing method. -/
def attrErrMsg (j : Json) (meth : String) : String :=
  "'" ++ pyTypeName j ++ "' object has no attribute '" ++ meth ++ "'"

/-- Python truthiness of a decoded JSON value. -/
def pyTruthy : Json → Bool
  | .null => false
  | .bool b => b
  | .num n => n ≠ 0
  | .fnum m _ => m ≠ 0
  | .fnan => true
  | .finf _ => true
  | .str s => s ≠ ""
  | .arr l => !l.isEmpty
  | .obj l => !l.isEmpty

/-- Whether a decoded value is a given string (Python `==` between a decoded
value and a `str` literal: true only for an equal string). -/
def isStrEq (j : Json) (s : String) : Bool :=
  match j with
  | .str t => t = s
  | _ => false

/-- Whitespace characters removed by Python's `str.strip()` (ASCII set). -/
def isPySpace (c : Char) : Bool :=
  c = ' ' || c = '\t' || c = '\n' || c = '\r' || c = '\x0b' || c = '\x0c'

/-- Python `str.strip()`: drop leading and trailing whitespace. -/
def pyStrip (s : String) : String :=
  String.mk (((s.data.dropWhile isPySpace).reverse.dropWhile isPySpace).reverse)

/-- The reserved MarkdownV2 characters of `escape_md`
(`src/telegram_controller.py`, regex class on line 41). -/
def reservedMd : List Char :=
  ['_', '*', '[', ']', '(', ')', '~', '`', '>', '#', '+', '-', '=', '|', '\x7b', '\x7d', '.', '!']

/-- Single-pass, per-character escaping used by `re.sub` in `escape_md`:
each reserved character is replaced by a backslash followed by itself. -/
def escape_md (s : String) : String :=
  String.mk (s.data.flatMap fun c => if c ∈ reservedMd then ['\\', c] else [c])

/-- One `text.replace(c, "\\" ++ c)` pass for a single character, as used by
`escape_only_dots` in the checkpoint controller. -/
def escChar (c : Char) (l : List Char) : List Char :=
  l.flatMap fun x => if x = c then ['\\', x] else [x]

/-- The checkpoint controller's `escape_only_dots`: nine chained single-character
`str.replace` passes, in source order `.`, `-`, `(`, `)`, `_`, `#`, `!`, `=`, `+`. -/
def escape_only_dots (s : String) : String :=
  String.mk
    (escChar '+' (escChar '=' (escChar '!' (escChar '#' (escChar '_'
      (escChar ')' (escChar '(' (escChar '-' (escChar '.' s.data)))))))))

/-! ### The JSON decoder (`json.loads`)

A fuel-indexed recursive-descent parser over the character list.  The fuel is
generous (`2 * length + 4`), so exhaustion is unreachable for well-formed
input; a `none` result models `json.JSONDecodeError`.  Python's decoder also
accepts the extension literals `NaN`, `Infinity` and `-Infinity`; they are kept
so that the decode-failure set of the model matches `json.loads`.  Astral
`\uXXXX` surrogate pairs decode to two placeholder characters instead of one
astral character; no theorem below touches such strings. -/

/-- Whitespace skipped between JSON tokens (`json` module set). -/
def jws (c : Char) : Bool := c = ' ' || c = '\t' || c = '\n' || c = '\r'

/-- Drop leading JSON whitespace. -/
def skipWs (cs : List Char) : List Char := cs.dropWhile jws

/-- ASCII digit test. -/
def jdigit (c : Char) : Bool := '0' ≤ c && c ≤ '9'

/-- Decimal value of a digit string. -/
def digitsToNat (ds : List Char) : Nat := ds.foldl (fun a c => a * 10 + (c.toNat - 48)) 0

/-- Value of one hexadecimal digit, if any. -/
def hexDigit (c : Char) : Option Nat :=
  if '0' ≤ c ∧ c ≤ '9' then some (c.toNat - 48)
  else if 'a' ≤ c ∧ c ≤ 'f' then some (c.toNat - 87)
  else if 'A' ≤ c ∧ c ≤ 'F' then some (c.toNat - 55)
  else none

/-- Body of a JSON string after the opening quote: returns the decoded
characters and the input after the closing quote.  Raw control characters are
rejected, as in Python's strict decoder. -/
def parseStrBody : List Char → Option (List Char × List Char)
  | [] => none
  | '"' :: rest => some ([], rest)
  | '\\' :: 'u' :: a :: b :: c :: d :: rest =>
    (match hexDigit a, hexDigit b, hexDigit c, hexDigit d with
     | some ha, some hb, some hc, some hd =>
       (parseStrBody rest).map fun p =>
         (Char.ofNat (((ha * 16 + hb) * 16 + hc) * 16 + hd) :: p.1, p.2)
     | _, _, _, _ => none)
  | '\\' :: e :: rest =>
    (match
       (if e = '"' then some '"' else if e = '\\' then some '\\'
        else if e = '/' then some '/' else if e = 'n' then some '\n'
        else if e = 't' then some '\t' else if e = 'r' then some '\r'
        else if e = 'b' then some '\x08' else if e = 'f' then some '\x0c'
        else none) with
     | some c => (parseStrBody rest).map fun p => (c :: p.1, p.2)
     | none => none)
  | c :: rest =>
    if c.toNat < 32 then none
    else (parseStrBody rest).map fun p => (c :: p.1, p.2)

/-- Exponent suffix of a float token (after `e`/`E`), given the mantissa and
the scale contributed by the fraction digits. -/
def parseExpPart (m : Int) (scale : Int) (cs : List Char) : Option (Json × List Char) :=
  let esign : Int := match cs with | '-' :: _ => -1 | _ => 1
  let cs1 := match cs with | '+' :: r => r | '-' :: r => r | _ => cs
  let ed := cs1.takeWhile jdigit
  if ed.isEmpty then none
  else some (Json.fnum m (scale + esign * (digitsToNat ed : Int)), cs1.dropWhile jdigit)

/-- A number token: integers decode to `Json.num`, anything with a fraction or
exponent to `Json.fnum` (decimal mantissa and exponent). -/
def parseNumTok (cs : List Char) : Option (Json × List Char) :=
  let neg : Bool := match cs with | '-' :: _ => true | _ => false
  let cs1 := match cs with | '-' :: r => r | _ => cs
  let ip := cs1.takeWhile jdigit
  let cs2 := cs1.dropWhile jdigit
  if ip.isEmpty then none
  else
    let iv : Int := (digitsToNat ip : Int)
    let sv : Int := if neg then -iv else iv
    match cs2 with
    | '.' :: r =>
      let fp := r.takeWhile jdigit
      let cs3 := r.dropWhile jdigit
      if fp.isEmpty then none
      else
        let m0 : Int := iv * (10 : Int) ^ fp.length + (digitsToNat fp : Int)
        let m : Int := if neg then -m0 else m0
        match cs3 with
        | 'e' :: r2 => parseExpPart m (-(fp.length : Int)) r2
        | 'E' :: r2 => parseExpPart m (-(fp.length : Int)) r2
        | _ => some (Json.fnum m (-(fp.length : Int)), cs3)
    | 'e' :: r2 => parseExpPart sv 0 r2
    | 'E' :: r2 => parseExpPart sv 0 r2
    | _ => some (Json.num sv, cs2)

mutual

/-- One JSON value, fuel-indexed. -/
def parseVal : Nat → List Char → Option (Json × List Char)
  | 0, _ => none
  | fuel + 1, cs =>
    match skipWs cs with
    | 'n' :: 'u' :: 'l' :: 'l' :: r => some (.null, r)
    | 't' :: 'r' :: 'u' :: 'e' :: r => some (.bool true, r)
    | 'f' :: 'a' :: 'l' :: 's' :: 'e' :: r => some (.bool false, r)
    | 'N' :: 'a' :: 'N' :: r => some (.fnan, r)
    | 'I' :: 'n' :: 'f' :: 'i' :: 'n' :: 'i' :: 't' :: 'y' :: r => some (.finf false, r)
    | '-' :: 'I' :: 'n' :: 'f' :: 'i' :: 'n' :: 'i' :: 't' :: 'y' :: r => some (.finf true, r)
    | '"' :: r => (parseStrBody r).map fun p => (.str (String.mk p.1), p.2)
    | '[' :: r =>
      (match skipWs r with
       | ']' :: r2 => some (.arr [], r2)
       | _ => parseArrTail fuel r [])
    | '\x7b' :: r =>
      (match skipWs r with
       | '\x7d' :: r2 => some (.obj [], r2)
       | _ => parseObjTail fuel r [])
    | other => parseNumTok other

/-- Items of a non-empty array, fuel-indexed; `acc` holds parsed items reversed. -/
def parseArrTail : Nat → List Char → List Json → Option (Json × List Char)
  | 0, _, _ => none
  | fuel + 1, cs, acc =>
    match parseVal fuel cs with
    | none => none
    | some (v, rest) =>
      match skipWs rest with
      | ',' :: r => parseArrTail fuel r (v :: acc)
      | ']' :: r => some (.arr (v :: acc).reverse, r)
      | _ => none

/-- Members of a non-empty object, fuel-indexed; duplicate keys overwrite
last-wins as in `dict`. -/
def parseObjTail : Nat → List Char → List (String × Json) → Option (Json × List Char)
  | 0, _, _ => none
  | fuel + 1, cs, acc =>
    match skipWs cs with
    | '"' :: r =>
      (match parseStrBody r with
       | none => none
       | some (k, r2) =>
         match skipWs r2 with
         | ':' :: r3 =>
           (match parseVal fuel r3 with
            | none => none
            | some (v, r4) =>
              let acc2 := objInsert acc (String.mk k) v
              match skipWs r4 with
              | ',' :: r5 => parseObjTail fuel r5 acc2
              | '\x7d' :: r5 => some (.obj acc2, r5)
              | _ => none)
         | _ => none)
    | _ => none

end

/-- Python `json.loads`: decode a whole string, rejecting trailing garbage. -/
def parseJson (s : String) : Option Json :=
  match parseVal (2 * s.length + 4) s.data with
  | some (v, rest) => if (skipWs rest).isEmpty then some v else none
  | none => none

/-! ### Rendering (`json.dumps(obj, indent=2)` and `str()`) -/

/-- Lower-case hexadecimal digit character. -/
def hexChar (n : Nat) : Char := if n < 10 then Char.ofNat (48 + n) else Char.ofNat (87 + n)

/-- Four-digit hexadecimal rendering for `\uXXXX` escapes. -/
def hex4 (n : Nat) : List Char :=
  [hexChar (n / 4096 % 16), hexChar (n / 256 % 16), hexChar (n / 16 % 16), hexChar (n % 16)]

/-- Unicode escape used by `json.dumps` under the default `ensure_ascii=True`:
BMP characters become one `\uXXXX`, astral ones a surrogate pair. -/
def uEscape (c : Char) : List Char :=
  let n := c.toNat
  if n < 65536 then '\\' :: 'u' :: hex4 n
  else
    ('\\' :: 'u' :: hex4 (55296 + (n - 65536) / 1024)) ++
      ('\\' :: 'u' :: hex4 (56320 + (n - 65536) % 1024))

/-- Escaping of one character inside a dumped JSON string. -/
def jsonQuoteChar (c : Char) : List Char :=
  if c = '"' then ['\\', '"']
  else if c = '\\' then ['\\', '\\']
  else if c = '\n' then ['\\', 'n']
  else if c = '\t' then ['\\', 't']
  else if c = '\r' then ['\\', 'r']
  else if c = '\x08' then ['\\', 'b']
  else if c = '\x0c' then ['\\', 'f']
  else if c.toNat < 32 ∨ c.toNat > 126 then uEscape c
  else [c]

/-- A dumped JSON string with surrounding quotes. -/
def jsonQuote (s : String) : String :=
  String.mk ('"' :: s.data.flatMap jsonQuoteChar ++ ['"'])

/-- Indentation: `n` spaces. -/
def spaces (n : Nat) : String := String.mk (List.replicate n ' ')

/-- Decimal rendering of a stored float; an approximation of Python's
shortest-round-trip float repr, never relied upon by a theorem. -/
def floatRender (m : Int) (e : Int) : String :=
  if e = 0 then toString m ++ ".0" else toString m ++ "e" ++ toString e

mutual

/-- One value of `json.dumps(obj, indent=2)`, at the enclosing indentation. -/
def dumpVal (ind : Nat) : Json → String
  | .null => "null"
  | .bool true => "true"
  | .bool false => "false"
  | .num n => toString n
  | .fnum m e => floatRender m e
  | .fnan => "NaN"
  | .finf false => "Infinity"
  | .finf true => "-Infinity"
  | .str s => jsonQuote s
  | .arr [] => "[]"
  | .arr (x :: xs) =>
    "[\n" ++ spaces (ind + 2) ++ dumpVal (ind + 2) x ++ dumpArr (ind + 2) xs
      ++ "\n" ++ spaces ind ++ "]"
  | .obj [] => "\x7b\x7d"
  | .obj ((k, v) :: fs) =>
    "\x7b\n" ++ spaces (ind + 2) ++ jsonQuote k ++ ": " ++ dumpVal (ind + 2) v
      ++ dumpObj (ind + 2) fs ++ "\n" ++ spaces ind ++ "\x7d"

/-- Remaining array items, each on its own indented line. -/
def dumpArr (ind : Nat) : List Json → String
  | [] => ""
  | x :: xs => ",\n" ++ spaces ind ++ dumpVal ind x ++ dumpArr ind xs

/-- Remaining object members, each on its own indented line. -/
def dumpObj (ind : Nat) : List (String × Json) → String
  | [] => ""
  | (k, v) :: fs => ",\n" ++ spaces ind ++ jsonQuote k ++ ": " ++ dumpVal ind v ++ dumpObj ind fs

end

/-- Python `json.dumps(obj, indent=2)`. -/
def pyDumps (j : Json) : String := dumpVal 0 j

/-- Escaping of one character inside Python `repr` of a string, for quote
character `q`.  Printable characters are kept; the treatment of non-ASCII
printables is approximate and never relied upon by a theorem. -/
def pyCharRepr (q : Char) (c : Char) : List Char :=
  if c = '\\' then ['\\', '\\']
  else if c = q then ['\\', q]
  else if c = '\n' then ['\\', 'n']
  else if c = '\r' then ['\\', 'r']
  else if c = '\t' then ['\\', 't']
  else if c.toNat < 32 ∨ c.toNat = 127 then
    ['\\', 'x', hexChar (c.toNat / 16 % 16), hexChar (c.toNat % 16)]
  else [c]

/-- Python `repr` of a string: single quotes unless the string contains a
single quote and no double quote. -/
def pyStrRepr (s : String) : String :=
  let q : Char := if s.data.contains (Char.ofNat 39) && !(s.data.contains '"') then '"' else Char.ofNat 39
  String.mk (q :: s.data.flatMap (pyCharRepr q) ++ [q])

mutual

/-- Python `repr` of a decoded JSON value (used by `str()` on containers). -/
def pyRepr : Json → String
  | .null => "None"
  | .bool true => "True"
  | .bool false => "False"
  | .num n => toString n
  | .fnum m e => floatRender m e
  | .fnan => "nan"
  | .finf false => "inf"
  | .finf true => "-inf"
  | .str s => pyStrRepr s
  | .arr [] => "[]"
  | .arr (x :: xs) => "[" ++ pyRepr x ++ reprArrItems xs ++ "]"
  | .obj [] => "\x7b\x7d"
  | .obj ((k, v) :: fs) => "\x7b" ++ pyStrRepr k ++ ": " ++ pyRepr v ++ reprObjItems fs ++ "\x7d"

/-- Remaining repr'd array items. -/
def reprArrItems : List Json → String
  | [] => ""
  | x :: xs => ", " ++ pyRepr x ++ reprArrItems xs

/-- Remaining repr'd object members. -/
def reprObjItems : List (String × Json) → String
  | [] => ""
  | (k, v) :: fs => ", " ++ pyStrRepr k ++ ": " ++ pyRepr v ++ reprObjItems fs

end

/-- Python `str()` of a decoded JSON value, as interpolated by an f-string. -/
def pyStr : Json → String
  | .str s => s
  | .null => "None"
  | .bool true => "True"
  | .bool false => "False"
  | .num n => toString n
  | .fnum m e => floatRender m e
  | .fnan => "nan"
  | .finf false => "inf"
  | .finf true => "-inf"
  | .arr l => pyRepr (.arr l)
  | .obj l => pyRepr (.obj l)

/-- Python `x.get(key, default)`: dict lookup; calling it on any non-dict
raises `AttributeError`. -/
def jget (j : Json) (key : String) (d : Json) : Except String Json :=
  match j with
  | .obj fs => .ok (fieldD fs key d)
  | _ => .error (attrErrMsg j "get")

/-- Python `x[key]` for a string key: `KeyError` when absent, `TypeError`-like
failure on non-dicts. -/
def jindex (j : Json) (key : String) : Except String Json :=
  match j with
  | .obj fs =>
    (match flookup fs key with
     | some v => .ok v
     | none => .error ("KeyError: '" ++ key ++ "'"))
  | _ => .error ("'" ++ pyTypeName j ++ "' object is not subscriptable")

/-!
### The root controller, `telegram_controller.py`

`RootCtl.process_output_line` embeds lines 90-157; the result is
`Except String (Option Json)`: `.ok none` is Python `None` (a filtered line),
`.ok (some v)` the returned value (the `text` branch can return a non-string),
and `.error` an exception escaping the function (only `json.JSONDecodeError`
is caught there).
-/

namespace RootCtl

/-- Message assembled by the `tool_use` branch (lines 144-150): header, an
optional status line, and the dumped input inside a fenced block, stripped. -/
def toolUseMsg (toolName status inputs : Json) : String :=
  pyStrip ("[" ++ pyStr toolName ++ "]:\n"
    ++ (if pyTruthy status then "Status: " ++ pyStr status ++ "\n" else "")
    ++ "```\n"
    ++ "Input: " ++ pyDumps inputs ++ "\n"
    ++ "```\n")

/-- Dispatch on the decoded object: the body of the `try` after `json.loads`
(lines 98-153). -/
def processDecoded (obj : Json) : Except String (Option Json) := do
  let ty ← jget obj "type" .null
  if isStrEq ty "step_start" || isStrEq ty "step_finish" then
    return none
  else if isStrEq ty "text" then
    let t ← jget obj "text" (.str "")
    if pyTruthy t then
      return some t
    else
      let part ← jget obj "part" (.obj [])
      let pt ← jget part "text" (.str "")
      return some pt
  else if isStrEq ty "error" then
    let m ← jget obj "message" (.str "")
    return some (.str ("Error: " ++ pyStr m))
  else if isStrEq ty "command" then
    let c ← jget obj "command" (.str "")
    return some (.str ("Command: " ++ pyStr c))
  else if isStrEq ty "file" then
    let p ← jget obj "path" (.str "")
    let sz ← jget obj "size" (.str "")
    return some (.str ("File: " ++ pyStr p ++ " (" ++ pyStr sz ++ ")"))
  else if isStrEq ty "directory" then
    let p ← jget obj "path" (.str "")
    return some (.str ("Directory: " ++ pyStr p))
  else if isStrEq ty "completed" then
    return some (.str "Operation completed successfully.")
  else if isStrEq ty "tool_use" then
    let part ← jget obj "part" (.obj [])
    if pyTruthy part then
      let toolName ← jget part "tool" (.str "Unknown tool")
      let st ← jget part "state" (.obj [])
      let status ← jget st "status" (.str "")
      let inputs ← jget st "input" (.obj [])
      let _outputs ← jget st "output" (.obj [])
      return some (.str (toolUseMsg toolName status inputs))
    else
      let fallbackTool ← jget obj "tool" (.str "Unknown tool")
      let toolName ← jget obj "tool_name" fallbackTool
      let inputs ← jget obj "input" (.obj [])
      let _outputs ← jget obj "output" (.obj [])
      return some (.str (toolUseMsg toolName (.str "") inputs))
  else
    return some (.str (pyDumps obj))

/-- `process_output_line` (lines 90-157).  Only `json.JSONDecodeError` is
caught: a decode failure returns the trimmed raw line. -/
def process_output_line (line : String) : Except String (Option Json) :=
  match parseJson line with
  | none => .ok (some (.str (pyStrip line)))
  | some obj => processDecoded obj

/-- The send decision at line 199: `if formatted is not None and
formatted.strip():` — `.strip()` on a non-string value raises. -/
def sendDecision (formatted : Option Json) : Except String (Option String) :=
  match formatted with
  | none => .ok none
  | some (.str s) => .ok (if pyStrip s = "" then none else some s)
  | some v => .error (attrErrMsg v "strip")

/-- One iteration of the streaming loop (lines 196-207): strip the raw line,
classify it, and decide whether a message is sent. -/
def lineOutcome (line : String) : Except String (Option String) :=
  match process_output_line (pyStrip line) with
  | .error e => .error e
  | .ok formatted => sendDecision formatted

/-- The streaming loop (lines 192-207) over the stdout lines.  `fail k` says
whether the k-th attempted `bot.send_message` raises a delivery error; that
exception is caught by the inner `try` and only logged.  Returns the attempted
messages paired with their delivery outcome, and, if an exception escaped a
loop iteration, its message (which aborts the loop). -/
def relayLines : List String → (Nat → Bool) → Nat → List (String × Bool) × Option String
  | [], _, _ => ([], none)
  | l :: ls, fail, k =>
    if l = "" then relayLines ls fail k
    else
      match lineOutcome l with
      | .error e => ([], some e)
      | .ok none => relayLines ls fail k
      | .ok (some m) =>
        let rest := relayLines ls fail (k + 1)
        ((m, !fail k) :: rest.1, rest.2)

/-- `stream_opencode_output` (lines 179-225): the loop, then the stderr
message, then the exit-code message; an exception escaping the loop jumps to
the outer handler, which sends a single error message instead.  Returns the
ordered list of messages handed to `bot.send_message`. -/
def stream_opencode_output (lines : List String) (stderr : String) (exitCode : Int)
    (fail : Nat → Bool) : List String :=
  let r := relayLines lines fail 0
  let sent := r.1.map Prod.fst
  match r.2 with
  | some e => sent ++ ["Error occurred while running command: " ++ e]
  | none =>
    sent ++ (if stderr ≠ "" then ["Error: " ++ stderr] else [])
      ++ (if exitCode ≠ 0 then ["Command failed with exit code " ++ toString exitCode] else [])

/-- The list comprehension `[session.get('id', '') for session in
sessions_data]` over a decoded list (line 83). -/
def idsOf : List Json → Except String (List Json)
  | [] => .ok []
  | s :: rest => do
    let i ← jget s "id" (.str "")
    let is ← idsOf rest
    .ok (i :: is)

/-- Body of the `try` in `is_valid_session_id` (lines 80-84).  `stdoutOpt` is
the collaborator outcome: `none` when `run_opencode_command` itself raised,
otherwise the captured stdout.  Iterating a non-empty dict yields string keys
whose `.get` raises; iterating scalars raises `TypeError`. -/
def validateCore (sessionId : String) (stdoutOpt : Option String) : Except String Bool :=
  match stdoutOpt with
  | none => .error "run_opencode_command raised"
  | some out =>
    match parseJson out with
    | none => .error "json.loads raised JSONDecodeError"
    | some (.arr sessions) => do
      let ids ← idsOf sessions
      .ok (ids.any fun j => isStrEq j sessionId)
    | some (.obj []) => .ok false
    | some (.str "") => .ok false
    | some (.obj (_ :: _)) => .error (attrErrMsg (.str "") "get")
    | some (.str _) => .error (attrErrMsg (.str "") "get")
    | some other => .error ("'" ++ pyTypeName other ++ "' object is not iterable")

/-- `is_valid_session_id` (lines 78-88): any exception in the body is caught,
logged, and the function returns `True` (fail-open). -/
def is_valid_session_id (sessionId : String) (stdoutOpt : Option String) : Bool :=
  match validateCore sessionId stdoutOpt with
  | .ok b => b
  | .error _ => true

/-- The in-memory `session_store` (line 33): chat id to the inner dict's
single `current_session_id` slot, which holds `None` or a string. -/
abbrev Store : Type := List (String × Option String)

/-- Association lookup over the store. -/
def storeLookup : List (String × Option String) → String → Option (Option String)
  | [], _ => none
  | (k, v) :: rest, key => if k = key then some v else storeLookup rest key

/-- The shared guard of lines 68-69 and 74-75: create the chat entry with a
`None` session when the chat is unknown. -/
def ensureChat (store : Store) (chatId : String) : Store :=
  match storeLookup store chatId with
  | some _ => store
  | none => store ++ [(chatId, none)]

/-- `get_current_session_id` (lines 66-70): inserts a fresh entry when the
chat is unknown, then reads the slot; returns the value and the updated store. -/
def get_current_session_id (store : Store) (chatId : String) : Option String × Store :=
  let s := ensureChat store chatId
  ((storeLookup s chatId).join, s)

/-- `set_current_session_id` (lines 72-76): ensure the entry, then overwrite
its slot with the given value. -/
def set_current_session_id (store : Store) (chatId : String) (sessionId : Option String) : Store :=
  (ensureChat store chatId).map fun p => if p.1 = chatId then (p.1, sessionId) else p

/-- Command construction of `handle_message` (lines 309-316): Python tests
`if current_session_id:`, so `None` and the empty string both take the
`--continue` path. -/
def handleMessageArgs (currentSessionId : Option String) (userMessage : String) : List String :=
  match currentSessionId with
  | some s =>
    if s = "" then ["run", "--continue", userMessage, "--format", "json"]
    else ["run", "--session", s, userMessage, "--format", "json"]
  | none => ["run", "--continue", userMessage, "--format", "json"]

/-- Reply of `handle_current_session` (lines 275-282), again via truthiness. -/
def currentSessionReply (currentSessionId : Option String) : String :=
  match currentSessionId with
  | some s => if s = "" then "No active session." else "Current session: " ++ s
  | none => "No active session."

end RootCtl

/-!
### The nested controller, `src/telegram_controller.py`

This variant (the one imported by `main.py`) has no `step_start`/`step_finish`
filter and no `error`/`command`/`file`/`directory`/`completed` branches; its
`tool_use` block escapes the dumped input with `escape_md` and carries no
`Input:` label; its validation except-branch returns `False`.
-/

namespace SrcCtl

/-- Message assembled by the `tool_use` branch (lines 83-92). -/
def toolUseMsg (toolName status inputs : Json) : String :=
  pyStrip ("[" ++ pyStr toolName ++ "]:\n"
    ++ (if pyTruthy status then "Status: " ++ pyStr status ++ "\n" else "")
    ++ "```\n"
    ++ escape_md (pyDumps inputs) ++ "\n"
    ++ "```\n")

/-- Dispatch on the decoded object (lines 51-95). -/
def processDecoded (obj : Json) : Except String Json := do
  let ty ← jget obj "type" .null
  if isStrEq ty "text" then
    let t ← jget obj "text" (.str "")
    let part ← jget obj "part" (.obj [])
    if pyTruthy part then
      let pt ← jget part "text" t
      return pt
    else
      return t
  else if isStrEq ty "tool_use" then
    let part ← jget obj "part" (.obj [])
    if pyTruthy part then
      let toolName ← jget part "tool" (.str "Unknown tool")
      let st ← jget part "state" (.obj [])
      let status ← jget st "status" (.str "")
      let inputs ← jget st "input" (.obj [])
      let _outputs ← jget st "output" (.obj [])
      return .str (toolUseMsg toolName status inputs)
    else
      let fallbackTool ← jget obj "tool" (.str "Unknown tool")
      let toolName ← jget obj "tool_name" fallbackTool
      let inputs ← jget obj "input" (.obj [])
      let _outputs ← jget obj "output" (.obj [])
      return .str (toolUseMsg toolName (.str "") inputs)
  else
    return .str (pyDumps obj)

/-- `process_output_line` (lines 43-99): an empty line returns `""`, a decode
failure the trimmed raw line; there is no filtered (`None`) outcome. -/
def process_output_line (line : String) : Except String Json :=
  if line = "" then .ok (.str "")
  else
    match parseJson line with
    | none => .ok (.str (pyStrip line))
    | some obj => processDecoded obj

/-- The send decision of this variant's streaming loop (line 187):
`if formatted and formatted.strip():` — a falsy value is skipped, a truthy
non-string raises on `.strip()`, a truthy string is sent unless blank. -/
def sendDecision (formatted : Json) : Except String (Option String) :=
  if pyTruthy formatted then
    match formatted with
    | .str s => .ok (if pyStrip s = "" then none else some s)
    | v => .error (attrErrMsg v "strip")
  else .ok none

/-- The list comprehension `[s["id"] for s in sessions_data]` (line 150):
subscripting raises on non-dicts and on a missing key. -/
def idsOfIndex : List Json → Except String (List Json)
  | [] => .ok []
  | s :: rest => do
    let i ← jindex s "id"
    let is ← idsOfIndex rest
    .ok (i :: is)

/-- Body of the `try` in `is_valid_session_id` (lines 147-151). -/
def validateCore (sessionId : String) (stdoutOpt : Option String) : Except String Bool :=
  match stdoutOpt with
  | none => .error "run_opencode_command raised"
  | some out =>
    match parseJson out with
    | none => .error "json.loads raised JSONDecodeError"
    | some (.arr sessions) => do
      let ids ← idsOfIndex sessions
      .ok (ids.any fun j => isStrEq j sessionId)
    | some (.obj []) => .ok false
    | some (.str "") => .ok false
    | some (.obj (_ :: _)) => .error "TypeError: string indices must be integers"
    | some (.str _) => .error "TypeError: string indices must be integers"
    | some other => .error ("'" ++ pyTypeName other ++ "' object is not iterable")

/-- `is_valid_session_id` (lines 145-153): the except branch returns `False`
(fail-closed), although its own comment announces treating the id as valid. -/
def is_valid_session_id (sessionId : String) (stdoutOpt : Option String) : Bool :=
  match validateCore sessionId stdoutOpt with
  | .ok b => b
  | .error _ => false

end SrcCtl

/-- A fully-populated `tool_use` line object with a `part`: used to state that
the rendering is independent of the `output` field. -/
def toolUseObj (tool status input output : Json) : Json :=
  .obj [("type", .str "tool_use"),
        ("part", .obj [("tool", tool),
                       ("state", .obj [("status", status), ("input", input), ("output", output)])])]

/-- A `tool_use` line object without a `part` (the fallback shape). -/
def toolUseFallbackObj (toolName input output : Json) : Json :=
  .obj [("type", .str "tool_use"), ("tool_name", toolName), ("input", input), ("output", output)]

/-!
## Supporting lemmas
-/

/-- Unfolding of string concatenation to character lists. -/
theorem string_data_append (s t : String) : (s ++ t).data = s.data ++ t.data := by
  cases s; cases t; rfl

/-- A character-to-list map that keeps every character fixed is the identity. -/
theorem flatMap_singleton_eq_self (l : List Char) (f : Char → List Char)
    (h : ∀ c ∈ l, f c = [c]) : l.flatMap f = l := by
  induction l with
  | nil => rfl
  | cons a t ih =>
    simp only [List.flatMap_cons]
    rw [h a (by simp), ih fun c hc => h c (by simp [hc])]
    rfl

/-- One `str.replace` pass for a character absent from the text is the identity. -/
theorem escChar_eq_self (c : Char) (l : List Char) (h : ∀ x ∈ l, x ≠ c) :
    escChar c l = l :=
  flatMap_singleton_eq_self l _ fun x hx => by simp [h x hx]

/-- Looking up a freshly appended chat entry. -/
theorem storeLookup_append_singleton (store : RootCtl.Store) (chat : String) (v : Option String)
    (h : RootCtl.storeLookup store chat = none) :
    RootCtl.storeLookup (store ++ [(chat, v)]) chat = some v := by
  induction store with
  | nil => simp [RootCtl.storeLookup]
  | cons p rest ih =>
    obtain ⟨k, w⟩ := p
    by_cases hk : k = chat
    · simp [RootCtl.storeLookup, hk] at h
    · simp only [RootCtl.storeLookup, hk, if_neg hk, List.cons_append] at h ⊢
      exact ih h

/-- After `ensureChat` the chat entry exists and holds the old value (or `None`). -/
theorem storeLookup_ensure (store : RootCtl.Store) (chat : String) :
    RootCtl.storeLookup (RootCtl.ensureChat store chat) chat
      = some ((RootCtl.storeLookup store chat).getD none) := by
  unfold RootCtl.ensureChat
  cases h : RootCtl.storeLookup store chat with
  | some w => simp [h]
  | none => simp [storeLookup_append_singleton store chat none h]

/-- Overwriting the chat slot is visible to a subsequent lookup. -/
theorem storeLookup_map_set (s : RootCtl.Store) (chat : String) (v : Option String) :
    RootCtl.storeLookup (s.map fun p => if p.1 = chat then (p.1, v) else p) chat
      = (RootCtl.storeLookup s chat).map fun _ => v := by
  induction s with
  | nil => simp [RootCtl.storeLookup]
  | cons p rest ih =>
    obtain ⟨k, w⟩ := p
    simp only [List.map_cons]
    by_cases hk : k = chat
    · rw [show (if ((k, w) : String × Option String).1 = chat then (((k, w) : String × Option String).1, v) else (k, w)) = (k, v) from if_pos hk]
      simp [RootCtl.storeLookup, hk]
    · rw [show (if ((k, w) : String × Option String).1 = chat then (((k, w) : String × Option String).1, v) else (k, w)) = (k, w) from if_neg hk]
      simp [RootCtl.storeLookup, hk, ih]

/-- The slot read back right after `set_current_session_id` is the value written. -/
theorem storeLookup_set_self (store : RootCtl.Store) (chat : String) (v : Option String) :
    RootCtl.storeLookup (RootCtl.set_current_session_id store chat v) chat = some v := by
  unfold RootCtl.set_current_session_id
  rw [storeLookup_map_set, storeLookup_ensure]
  rfl

/-- `ensureChat` does nothing when the chat entry already exists. -/
theorem ensureChat_of_isSome (store : RootCtl.Store) (chat : String)
    (h : (RootCtl.storeLookup store chat).isSome) :
    RootCtl.ensureChat store chat = store := by
  unfold RootCtl.ensureChat
  cases h' : RootCtl.storeLookup store chat with
  | some w => rfl
  | none => rw [h'] at h; simp at h

/-- Reading right after writing returns the written slot value. -/
theorem get_set_fst (store : RootCtl.Store) (chat : String) (v : Option String) :
    (RootCtl.get_current_session_id (RootCtl.set_current_session_id store chat v) chat).1 = v := by
  show (RootCtl.storeLookup
    (RootCtl.ensureChat (RootCtl.set_current_session_id store chat v) chat) chat).join = v
  rw [ensureChat_of_isSome _ _ (by rw [storeLookup_set_self]; rfl), storeLookup_set_self]
  rfl

/-- Reduction of a bind on a successful `Except` computation. -/
theorem ebind_ok {ε α β : Type} (a : α) (f : α → Except ε β) :
    ((Except.ok a : Except ε α) >>= f) = f a := rfl

/-- Reduction of a bind on a failed `Except` computation. -/
theorem ebind_err {ε α β : Type} (e : ε) (f : α → Except ε β) :
    ((Except.error e : Except ε α) >>= f) = .error e := rfl

/-- Reduction of `pure` in the `Except` monad. -/
theorem epure_ok {ε α : Type} (a : α) : (pure a : Except ε α) = .ok a := rfl

/-- A `dict.get` whose key is present ignores the default. -/
theorem fieldD_of_flookup (fs : List (String × Json)) (k : String) (d v : Json)
    (h : flookup fs k = some v) : fieldD fs k d = v := by simp [fieldD, h]

/-- Strings with equal character data are equal. -/
theorem sext (a b : String) (h : a.data = b.data) : a = b := by
  cases a; cases b; exact congrArg String.mk h

/-- Stripping a message that starts with a non-whitespace character and ends
with a fenced-block close removes exactly the final newline. -/
theorem pyStrip_pad (s : String) (hne : s.data ≠ []) (hh : isPySpace s.data.headI = false) :
    pyStrip (s ++ "```\n") = s ++ "```" := by
  apply sext
  show ((((s ++ "```\n").data.dropWhile isPySpace).reverse.dropWhile isPySpace).reverse)
      = (s ++ "```").data
  rw [string_data_append, string_data_append]
  cases hd : s.data with
  | nil => exact absurd hd hne
  | cons a l =>
    rw [hd] at hh
    simp only [List.headI] at hh
    show ((((a :: l ++ ['`', '`', '`', '\n']).dropWhile isPySpace).reverse.dropWhile
        isPySpace).reverse) = a :: l ++ ['`', '`', '`']
    simp [List.dropWhile_cons, hh, List.reverse_append,
      show isPySpace '\n' = true from rfl, show isPySpace '`' = false from rfl]

/-- Closed form of the root `tool_use` message for string-valued tool name and
status: the `.strip()` only removes the final newline, so the message starts
with the bracketed tool name, carries a `Status:` line exactly when the status
is non-empty, and shows the dumped input inside the fenced block. -/
theorem toolUseMsg_closed (name stat : String) (inputs : Json) :
    RootCtl.toolUseMsg (.str name) (.str stat) inputs
      = "[" ++ name ++ "]:\n" ++ (if stat = "" then "" else "Status: " ++ stat ++ "\n")
        ++ "```\n" ++ "Input: " ++ pyDumps inputs ++ "\n" ++ "```" := by
  unfold RootCtl.toolUseMsg
  have hp : ∀ (S : String), ("[" ++ pyStr (.str name) ++ "]:\n" ++ S ++ "```\n"
        ++ "Input: " ++ pyDumps inputs ++ "\n").data ≠ [] := by
    intro S
    simp [string_data_append]
  have hh : ∀ (S : String), isPySpace ("[" ++ pyStr (.str name) ++ "]:\n" ++ S ++ "```\n"
        ++ "Input: " ++ pyDumps inputs ++ "\n").data.headI = false := by
    intro S
    have : ("[" ++ pyStr (.str name) ++ "]:\n" ++ S ++ "```\n"
        ++ "Input: " ++ pyDumps inputs ++ "\n").data
        = '[' :: (pyStr (.str name)).data ++ "]:\n".data ++ S.data ++ "```\n".data
          ++ "Input: ".data ++ (pyDumps inputs).data ++ "\n".data := by
      simp [string_data_append]
    rw [this]
    rfl
  by_cases hs : stat = ""
  · subst hs
    rw [show (if pyTruthy (Json.str "") then "Status: " ++ pyStr (Json.str "") ++ "\n" else "")
        = "" from rfl]
    rw [pyStrip_pad _ (hp "") (hh "")]
    rfl
  · rw [show (if pyTruthy (Json.str stat) then "Status: " ++ pyStr (Json.str stat) ++ "\n" else "")
        = "Status: " ++ stat ++ "\n" by simp [pyTruthy, pyStr, hs]]
    rw [pyStrip_pad _ (hp ("Status: " ++ stat ++ "\n")) (hh ("Status: " ++ stat ++ "\n"))]
    rw [if_neg hs]
    simp only [pyStr]

/-- The messages the streaming loop attempts, and whether it aborts, do not
depend on the delivery-failure pattern or the attempt counter. -/
theorem relayLines_indep (lines : List String) (f g : Nat → Bool) :
    ∀ (j k : Nat),
      (RootCtl.relayLines lines f j).1.map Prod.fst
        = (RootCtl.relayLines lines g k).1.map Prod.fst
      ∧ (RootCtl.relayLines lines f j).2 = (RootCtl.relayLines lines g k).2 := by
  induction lines with
  | nil => exact fun j k => ⟨rfl, rfl⟩
  | cons l ls ih =>
    intro j k
    simp only [RootCtl.relayLines]
    by_cases he : l = ""
    · rw [if_pos he, if_pos he]
      exact ih j k
    · rw [if_neg he, if_neg he]
      cases ho : RootCtl.lineOutcome l with
      | error e => simp
      | ok m =>
        cases m with
        | none => simpa using ih j k
        | some msg =>
          simp only [List.map_cons]
          exact ⟨by rw [(ih (j + 1) (k + 1)).1], (ih (j + 1) (k + 1)).2⟩

/-!
## The claims
-/

/-- C2 counterexample: the line `"5"` decodes successfully (to an `int`), so
`json.JSONDecodeError` is not raised, and `obj.get("type")` then raises an
uncaught `AttributeError`: `process_output_line` is not exception-free. -/
theorem c2_nonobject_line_raises :
    RootCtl.process_output_line "5" = Except.error "'int' object has no attribute 'get'" := rfl

/-- C2 (amended): for every input failing structured JSON decoding, both
variants of `process_output_line` return the trimmed original text without
raising; the universal no-raise claim fails only for lines that decode to
non-object JSON values, as witnessed by `c2_nonobject_line_raises`. -/
theorem c2_decode_failure_returns_raw (line : String) (h : parseJson line = none) :
    RootCtl.process_output_line line = .ok (some (.str (pyStrip line)))
    ∧ SrcCtl.process_output_line line = .ok (.str (pyStrip line)) := by
  constructor
  · unfold RootCtl.process_output_line
    rw [h]
  · unfold SrcCtl.process_output_line
    by_cases he : line = ""
    · subst he; rfl
    · rw [if_neg he, h]

/-- C2 witness: the amended theorem applied at the concrete non-JSON line
`"oops not json"`. -/
theorem c2_decode_failure_returns_raw_witness :
    RootCtl.process_output_line "oops not json" = .ok (some (.str "oops not json"))
    ∧ SrcCtl.process_output_line "oops not json" = .ok (.str "oops not json") :=
  c2_decode_failure_returns_raw "oops not json" rfl

/-- C1 counterexample: the root controller's `process_output_line` on a line
carrying both `part.text = "P"` and a non-empty top-level `text = "T"` yields
the top-level `"T"`, not the nested `"P"`. -/
theorem c1_root_top_text_wins_cex :
    RootCtl.process_output_line
        "\x7b\"type\":\"text\",\"part\":\x7b\"text\":\"P\"\x7d,\"text\":\"T\"\x7d"
      = .ok (some (.str "T"))
    ∧ ("T" : String) ≠ "P" := ⟨rfl, by decide⟩

/-- C1 (amended): for a decoded `text` object carrying a nested `part.text`
value `P` and a top-level `text` value `T`, the `src/telegram_controller.py`
variant always renders `P` (nested precedence); the root
`telegram_controller.py` renders the top-level `T` whenever `T` is truthy
(non-empty) and falls back to the nested `P` only when `T` is falsy. -/
theorem c1_text_precedence (fs pfs : List (String × Json)) (P T : Json)
    (htype : fieldD fs "type" .null = .str "text")
    (hpart : fieldD fs "part" (.obj []) = .obj pfs)
    (hptext : flookup pfs "text" = some P)
    (htext : fieldD fs "text" (.str "") = T) :
    SrcCtl.processDecoded (.obj fs) = .ok P
    ∧ (pyTruthy T = true → RootCtl.processDecoded (.obj fs) = .ok (some T))
    ∧ (pyTruthy T = false → RootCtl.processDecoded (.obj fs) = .ok (some P)) := by
  have hb : pfs.isEmpty = false := by
    cases pfs with
    | nil => simp [flookup] at hptext
    | cons a t => rfl
  have hf : fieldD pfs "text" (fieldD fs "text" (Json.str "")) = P :=
    fieldD_of_flookup _ _ _ _ hptext
  have hf2 : fieldD pfs "text" (Json.str "") = P := fieldD_of_flookup _ _ _ _ hptext
  refine ⟨?_, fun hT => ?_, fun hT => ?_⟩
  · simp only [SrcCtl.processDecoded, jget, htype, hpart, isStrEq, ebind_ok, epure_ok,
      pyTruthy, hb, hf]
    simp
  · simp only [RootCtl.processDecoded, jget, htype, htext, isStrEq, ebind_ok, epure_ok, hT]
    simp
  · simp only [RootCtl.processDecoded, jget, htype, hpart, htext, isStrEq, ebind_ok, epure_ok,
      hT, hf2]
    simp

/-- C1 witness: the amended theorem applied at the decoded object of the
counterexample line, exercising both the `src` conclusion and the truthy-`T`
root conclusion. -/
theorem c1_text_precedence_witness :
    SrcCtl.processDecoded
        (Json.obj [("type", Json.str "text"), ("part", Json.obj [("text", Json.str "P")]),
                   ("text", Json.str "T")]) = .ok (Json.str "P")
    ∧ RootCtl.processDecoded
        (Json.obj [("type", Json.str "text"), ("part", Json.obj [("text", Json.str "P")]),
                   ("text", Json.str "T")]) = .ok (some (Json.str "T")) := by
  have h := c1_text_precedence
    [("type", Json.str "text"), ("part", Json.obj [("text", Json.str "P")]),
     ("text", Json.str "T")]
    [("text", Json.str "P")] (Json.str "P") (Json.str "T") rfl rfl rfl rfl
  exact ⟨h.1, h.2.1 rfl⟩

/-- C3 counterexample: in `src/telegram_controller.py`, a `step_start` line is
not filtered: it renders to the pretty-printed JSON dump, which is non-blank
and therefore forwarded by that variant's send decision. -/
theorem c3_src_step_line_forwarded_cex :
    SrcCtl.process_output_line "\x7b\"type\":\"step_start\"\x7d"
      = .ok (.str "\x7b\n  \"type\": \"step_start\"\n\x7d")
    ∧ SrcCtl.sendDecision (.str "\x7b\n  \"type\": \"step_start\"\n\x7d")
      = .ok (some "\x7b\n  \"type\": \"step_start\"\n\x7d") := ⟨rfl, rfl⟩

/-- C3 (amended): for every decoded object whose `type` is `step_start` or
`step_finish`, regardless of other fields, the root controller filters the
line (returns `None`, so nothing is forwarded), while the
`src/telegram_controller.py` variant renders the pretty-printed dump of the
whole object instead of filtering it. -/
theorem c3_step_lines (fs : List (String × Json))
    (h : fieldD fs "type" .null = .str "step_start"
      ∨ fieldD fs "type" .null = .str "step_finish") :
    RootCtl.processDecoded (.obj fs) = .ok none
    ∧ SrcCtl.processDecoded (.obj fs) = .ok (.str (pyDumps (.obj fs))) := by
  rcases h with h | h <;>
    constructor <;>
      · simp only [RootCtl.processDecoded, SrcCtl.processDecoded, jget, h, isStrEq,
          ebind_ok, epure_ok]
        simp

/-- C3 witness: the amended theorem applied at a `step_finish` object that
carries an extra field. -/
theorem c3_step_lines_witness :
    RootCtl.processDecoded
        (Json.obj [("type", Json.str "step_finish"), ("extra", Json.num 7)]) = .ok none
    ∧ SrcCtl.processDecoded
        (Json.obj [("type", Json.str "step_finish"), ("extra", Json.num 7)])
      = .ok (.str (pyDumps
          (Json.obj [("type", Json.str "step_finish"), ("extra", Json.num 7)]))) :=
  c3_step_lines [("type", Json.str "step_finish"), ("extra", Json.num 7)] (Or.inr rfl)

/-- C6: when the session list cannot be obtained, the root controller's
`is_valid_session_id` returns `True` (fail-open) — both when the command
itself raises and when its stdout fails to decode — whereas the
`src/telegram_controller.py` variant returns `False` on the same failure,
contradicting both the spec and its own inline comment. -/
theorem c6_validation_fail_open (sessionId : String) :
    RootCtl.is_valid_session_id sessionId none = true
    ∧ RootCtl.is_valid_session_id sessionId (some "not json") = true
    ∧ SrcCtl.is_valid_session_id "s1" none = false :=
  ⟨rfl, rfl, rfl⟩

/-- C4: a delivery failure for one message is contained by the inner handler:
for every pattern of delivery failures, the full ordered list of messages the
stream hands to the gateway — and in particular the classification, rendering
and forwarding of every later line — is identical to the failure-free run. -/
theorem c4_delivery_failure_contained (lines : List String) (stderr : String)
    (exitCode : Int) (fail : Nat → Bool) :
    RootCtl.stream_opencode_output lines stderr exitCode fail
      = RootCtl.stream_opencode_output lines stderr exitCode (fun _ => false)
    ∧ (RootCtl.relayLines lines fail 0).1.map Prod.fst
      = (RootCtl.relayLines lines (fun _ => false) 0).1.map Prod.fst
    ∧ (RootCtl.relayLines lines fail 0).2
      = (RootCtl.relayLines lines (fun _ => false) 0).2 := by
  have h := relayLines_indep lines fail (fun _ => false) 0 0
  refine ⟨?_, h.1, h.2⟩
  unfold RootCtl.stream_opencode_output
  simp only [h.1, h.2]

/-- C5: the three-line scenario with empty stderr and exit code 0 forwards
exactly `"Hi"` then `"Bye"` and nothing else; and every run whose loop
completes without an escaping exception and exits with code `N ≠ 0` forwards
exactly one additional trailing `"Command failed with exit code N"` message
(none when `N = 0`). -/
theorem c5_scenario_and_exit_code :
    RootCtl.stream_opencode_output
        ["\x7b\"type\":\"text\",\"text\":\"Hi\"\x7d", "\x7b\"type\":\"step_start\"\x7d",
         "\x7b\"type\":\"text\",\"text\":\"Bye\"\x7d"] "" 0 (fun _ => false) = ["Hi", "Bye"]
    ∧ ∀ (lines : List String) (stderr : String) (exitCode : Int) (fail : Nat → Bool),
        exitCode ≠ 0 → (RootCtl.relayLines lines fail 0).2 = none →
        RootCtl.stream_opencode_output lines stderr exitCode fail
          = RootCtl.stream_opencode_output lines stderr 0 fail
            ++ ["Command failed with exit code " ++ toString exitCode] := by
  constructor
  · rfl
  · intro lines stderr exitCode fail hN habort
    unfold RootCtl.stream_opencode_output
    simp only [habort]
    simp [hN]

/-- C5 witness: the exit-code clause applied at the scenario's line list with
exit code 2 and no delivery failures. -/
theorem c5_scenario_and_exit_code_witness :
    RootCtl.stream_opencode_output
        ["\x7b\"type\":\"text\",\"text\":\"Hi\"\x7d", "\x7b\"type\":\"step_start\"\x7d",
         "\x7b\"type\":\"text\",\"text\":\"Bye\"\x7d"] "" 2 (fun _ => false)
      = RootCtl.stream_opencode_output
          ["\x7b\"type\":\"text\",\"text\":\"Hi\"\x7d", "\x7b\"type\":\"step_start\"\x7d",
           "\x7b\"type\":\"text\",\"text\":\"Bye\"\x7d"] "" 0 (fun _ => false)
        ++ ["Command failed with exit code " ++ toString (2 : Int)] :=
  c5_scenario_and_exit_code.2
    ["\x7b\"type\":\"text\",\"text\":\"Hi\"\x7d", "\x7b\"type\":\"step_start\"\x7d",
     "\x7b\"type\":\"text\",\"text\":\"Bye\"\x7d"] "" 2 (fun _ => false) (by decide) rfl

/-- C7: for a `tool_use` line with a non-empty `part` object (tool name from
`part.tool`, status from `part.state.status`, input from `part.state.input`),
the root controller renders exactly the bracketed tool-name header, a
`Status:` line iff the status is non-empty, and the dumped input inside a
fenced code block; the rendering never depends on any `output` field; and
without a `part` object the tool name falls back to `tool_name`/`tool`
(default `"Unknown tool"`) with no status line. -/
theorem c7_tool_use_rendering (fs pfs sfs : List (String × Json)) (name stat : String)
    (inputs : Json)
    (htype : fieldD fs "type" .null = .str "tool_use")
    (hpart : fieldD fs "part" (.obj []) = .obj pfs)
    (hpne : pfs.isEmpty = false)
    (hstate : fieldD pfs "state" (.obj []) = .obj sfs)
    (htool : fieldD pfs "tool" (.str "Unknown tool") = .str name)
    (hstatus : fieldD sfs "status" (.str "") = .str stat)
    (hinput : fieldD sfs "input" (.obj []) = inputs) :
    RootCtl.processDecoded (.obj fs)
      = .ok (some (.str (RootCtl.toolUseMsg (.str name) (.str stat) inputs)))
    ∧ RootCtl.toolUseMsg (.str name) (.str stat) inputs
      = "[" ++ name ++ "]:\n" ++ (if stat = "" then "" else "Status: " ++ stat ++ "\n")
        ++ "```\n" ++ "Input: " ++ pyDumps inputs ++ "\n" ++ "```"
    ∧ (∀ tv sv iv o₁ o₂ : Json,
        RootCtl.processDecoded (toolUseObj tv sv iv o₁)
          = RootCtl.processDecoded (toolUseObj tv sv iv o₂))
    ∧ (∀ tv iv ov : Json,
        RootCtl.processDecoded (toolUseFallbackObj tv iv ov)
          = .ok (some (.str (RootCtl.toolUseMsg tv (.str "") iv)))) := by
  refine ⟨?_, toolUseMsg_closed name stat inputs,
    fun tv sv iv o₁ o₂ => rfl, fun tv iv ov => rfl⟩
  simp only [RootCtl.processDecoded, jget, htype, hpart, hstate, htool, hstatus, hinput,
    isStrEq, ebind_ok, epure_ok, pyTruthy, hpne]
  simp

/-- C7 witness: the theorem applied at the spec's `curl` example, whose source
object also carries an `output` field that does not appear in the rendering. -/
theorem c7_tool_use_rendering_witness :
    RootCtl.processDecoded
        (Json.obj [("type", Json.str "tool_use"),
          ("part", Json.obj [("tool", Json.str "curl"),
            ("state", Json.obj [("status", Json.str "success"),
              ("input", Json.obj [("url", Json.str "http://x")]),
              ("output", Json.obj [("big", Json.str "stuff")])])])])
      = .ok (some (.str (RootCtl.toolUseMsg (.str "curl") (.str "success")
          (Json.obj [("url", Json.str "http://x")]))))
    ∧ RootCtl.toolUseMsg (.str "curl") (.str "success") (Json.obj [("url", Json.str "http://x")])
      = "[" ++ "curl" ++ "]:\n"
        ++ (if ("success" : String) = "" then "" else "Status: " ++ "success" ++ "\n")
        ++ "```\n" ++ "Input: " ++ pyDumps (Json.obj [("url", Json.str "http://x")])
        ++ "\n" ++ "```" := by
  have h := c7_tool_use_rendering
    [("type", Json.str "tool_use"),
     ("part", Json.obj [("tool", Json.str "curl"),
       ("state", Json.obj [("status", Json.str "success"),
         ("input", Json.obj [("url", Json.str "http://x")]),
         ("output", Json.obj [("big", Json.str "stuff")])])])]
    [("tool", Json.str "curl"),
     ("state", Json.obj [("status", Json.str "success"),
       ("input", Json.obj [("url", Json.str "http://x")]),
       ("output", Json.obj [("big", Json.str "stuff")])])]
    [("status", Json.str "success"), ("input", Json.obj [("url", Json.str "http://x")]),
     ("output", Json.obj [("big", Json.str "stuff")])]
    "curl" "success" (Json.obj [("url", Json.str "http://x")]) rfl rfl rfl rfl rfl rfl rfl
  exact ⟨h.1, h.2.1⟩

/-- C9: text containing none of the reserved markup characters is returned
unchanged by both the full policy (`escape_md`) and the minimal policy
(`escape_only_dots`); and under the minimal policy,
`escape_only_dots "a.b-c"` is `"a\.b\-c"`. -/
theorem c9_escape_policies (s : String) (h : ∀ c ∈ s.data, c ∉ reservedMd) :
    escape_md s = s ∧ escape_only_dots s = s ∧ escape_only_dots "a.b-c" = "a\\.b\\-c" := by
  have hne : ∀ c : Char, c ∈ reservedMd → ∀ x ∈ s.data, x ≠ c :=
    fun c hc x hx hxe => (h x hx) (hxe ▸ hc)
  refine ⟨?_, ?_, by decide⟩
  · unfold escape_md
    rw [flatMap_singleton_eq_self _ _ fun c hc => by simp [h c hc]]
  · unfold escape_only_dots
    rw [escChar_eq_self '.' s.data (hne '.' (by decide)),
        escChar_eq_self '-' s.data (hne '-' (by decide)),
        escChar_eq_self '(' s.data (hne '(' (by decide)),
        escChar_eq_self ')' s.data (hne ')' (by decide)),
        escChar_eq_self '_' s.data (hne '_' (by decide)),
        escChar_eq_self '#' s.data (hne '#' (by decide)),
        escChar_eq_self '!' s.data (hne '!' (by decide)),
        escChar_eq_self '=' s.data (hne '=' (by decide)),
        escChar_eq_self '+' s.data (hne '+' (by decide))]

/-- C9 witness: the theorem applied at the concrete reserved-character-free
text `"hello world"`. -/
theorem c9_escape_policies_witness :
    escape_md "hello world" = "hello world" ∧ escape_only_dots "hello world" = "hello world"
      ∧ escape_only_dots "a.b-c" = "a\\.b\\-c" :=
  c9_escape_policies "hello world" (by decide)

/-- C8: for every chat id and session id string, `get` immediately after
`set(chat, X)` returns `X`; and `get` on a chat id with no store entry
returns `None`, not an error. -/
theorem c8_registry_get_set (store store₂ : RootCtl.Store) (chatId chatId₂ X : String)
    (hnew : RootCtl.storeLookup store₂ chatId₂ = none) :
    (RootCtl.get_current_session_id
        (RootCtl.set_current_session_id store chatId (some X)) chatId).1 = some X
    ∧ (RootCtl.get_current_session_id store₂ chatId₂).1 = none := by
  refine ⟨get_set_fst store chatId (some X), ?_⟩
  show (RootCtl.storeLookup (RootCtl.ensureChat store₂ chatId₂) chatId₂).join = none
  rw [storeLookup_ensure, hnew]
  rfl

/-- C8 witness: the theorem applied at the empty store, chat `"chat1"` and
session id `"sess_123"`, with the never-seen chat `"chat2"`. -/
theorem c8_registry_get_set_witness :
    (RootCtl.get_current_session_id
        (RootCtl.set_current_session_id [] "chat1" (some "sess_123")) "chat1").1 = some "sess_123"
    ∧ (RootCtl.get_current_session_id [] "chat2").1 = none :=
  c8_registry_get_set [] [] "chat1" "chat2" "sess_123" rfl

/-- C10: after `set_current_session_id(chat, "")` the registry stores the
empty string, yet `handle_message` takes the `--continue` (no-session) path
and `/current_session` replies that no session is active. -/
theorem c10_empty_session_indistinguishable (store : RootCtl.Store) (chatId msg : String) :
    (RootCtl.get_current_session_id
        (RootCtl.set_current_session_id store chatId (some "")) chatId).1 = some ""
    ∧ RootCtl.handleMessageArgs
        (RootCtl.get_current_session_id
          (RootCtl.set_current_session_id store chatId (some "")) chatId).1 msg
        = ["run", "--continue", msg, "--format", "json"]
    ∧ RootCtl.currentSessionReply
        (RootCtl.get_current_session_id
          (RootCtl.set_current_session_id store chatId (some "")) chatId).1
        = "No active session." := by
  have hg := get_set_fst store chatId (some "")
  refine ⟨hg, ?_, ?_⟩ <;> rw [hg] <;> rfl
